import Mathlib

/-!
Shallow embedding of `pibooth/pictures/__init__.py` (the picture
composition engine of the pibooth photobooth application): orientation
inference, canvas sizing, composition-backend selection, pictogram
recoloring and the layout-image pipeline.

Python exceptions are modelled with `Except PyError`; Python integers are
`Nat`/`Int`; the Python floats appearing in the caption-rectangle
arithmetic are modelled faithfully as IEEE-754 binary64 values, computed
exactly over dyadic rationals with round-to-nearest, ties-to-even.
External library primitives (Pillow, pygame) that the module consumes
are modelled by small executable definitions that follow the libraries'
documented behaviour.
-/

namespace Pibooth

/-- An RGB color triple, each channel a non-negative machine integer. -/
structure RGB where
  r : Nat
  g : Nat
  b : Nat
deriving DecidableEq, Repr

/-- An RGBA pixel. -/
structure RGBA where
  r : Nat
  g : Nat
  b : Nat
  a : Nat
deriving DecidableEq, Repr

/-- An in-memory raster image (used both for PIL images and pygame
surfaces): a width, a height, and a total pixel map (meaningful on
coordinates within bounds). -/
structure Img where
  w : Nat
  h : Nat
  pix : Nat → Nat → RGBA

/-- A capture supplied by the session controller; only its pixel size is
inspected by this module (`captures[0].size`). -/
structure Capture where
  w : Nat
  h : Nat
deriving DecidableEq, Repr

/-- The Python exceptions that can escape the embedded functions. -/
inductive PyError where
  /-- Python `IndexError` from subscripting an empty list. -/
  | indexError
  /-- Python `ValueError` with its message. -/
  | valueError (msg : String)
  /-- Pygame `pygame.error` from loading a missing file. -/
  | pygameError (msg : String)
deriving DecidableEq, Repr

/-- The orientation constants `AUTO`, `PORTRAIT`, `LANDSCAPE`. -/
inductive Orientation where
  | auto
  | portrait
  | landscape
deriving DecidableEq, Repr

/-- The two composition backends selectable by `get_picture_maker`:
`maker.PilPictureMaker` (portable) and `maker.OpenCvPictureMaker`
(accelerated). -/
inductive BackendKind where
  | pil
  | opencv
deriving DecidableEq, Repr

/-- The constructed picture-maker object: which backend class was
instantiated, and the `(width, height, *captures)` constructor
arguments. -/
structure PictureMaker where
  kind : BackendKind
  width : Nat
  height : Nat
  captures : List Capture
deriving DecidableEq, Repr

/-- Source `get_best_orientation(captures)`: decide PORTRAIT or LANDSCAPE from
the first capture's aspect and the number of captures.  Note the source
reads `captures[0].size` before any length check, so an empty list
raises `IndexError`; a list longer than 4 raises
`ValueError("List of max 4 pictures expected, got {}")`. -/
def get_best_orientation (captures : List Capture) : Except PyError Orientation :=
  match captures with
  | [] => .error .indexError
  | c0 :: rest =>
    let n := (c0 :: rest).length
    let is_portrait := c0.w < c0.h
    if n = 1 ∨ n = 4 then
      .ok (if is_portrait then .portrait else .landscape)
    else if n = 2 ∨ n = 3 then
      .ok (if is_portrait then .landscape else .portrait)
    else
      .error (.valueError ("List of max 4 pictures expected, got " ++ toString n))

/-- Source `get_picture_maker(captures, orientation, paper_format, force_pil)`:
resolve AUTO orientation via `get_best_orientation`, canonicalize the
paper format to portrait-first, scale by 600 dpi, swap for LANDSCAPE,
and instantiate `PilPictureMaker` when `not maker.cv2 or force_pil`,
else `OpenCvPictureMaker`.  The module-level fact `maker.cv2`
(availability of OpenCV) is passed as the explicit flag
`cv2_available`. -/
def get_picture_maker (cv2_available : Bool) (captures : List Capture)
    (orientation : Orientation) (paper_format : Nat × Nat)
    (force_pil : Bool) : Except PyError PictureMaker := do
  let orientation ← match orientation with
    | .auto => get_best_orientation captures
    | o => pure o
  let paper_format :=
    if paper_format.1 > paper_format.2 then (paper_format.2, paper_format.1) else paper_format
  let size := (paper_format.1 * 600, paper_format.2 * 600)
  let size := if orientation = .landscape then (size.2, size.1) else size
  if !cv2_available || force_pil then
    pure { kind := .pil, width := size.1, height := size.2, captures := captures }
  else
    pure { kind := .opencv, width := size.1, height := size.2, captures := captures }

/-- Pillow's RGB(A) → `L` grayscale conversion (ITU-R 601-2 luma
transform, as documented by Pillow): `L = (R*299 + G*587 + B*114) / 1000`
with integer truncation. -/
def grayscale (p : RGBA) : Nat :=
  (p.r * 299 + p.g * 587 + p.b * 114) / 1000

/-- One channel of `PIL.ImageOps.colorize` with the default black/white
points 0 and 255: the lookup table is the linear interpolation
`black + i * (white - black) // 255` (Python floor division) for
`i < 255`, and exactly `white` at 255. -/
def colorize_channel (black white : Nat) (i : Nat) : Nat :=
  if i < 255 then
    ((black : Int) + ((i : Int) * ((white : Int) - (black : Int))).fdiv 255).toNat
  else
    white

/-- The implicit background color of `set_picto_color` when none is
supplied: `(abs(color[0]-255), abs(color[1]-255), abs(color[2]-255))`
computed on Python integers. -/
def default_bg (color : RGB) : RGB :=
  { r := ((color.r : Int) - 255).natAbs
  , g := ((color.g : Int) - 255).natAbs
  , b := ((color.b : Int) - 255).natAbs }

/-- Source `set_picto_color(picto_pil_image, color, bg_color)`: default the
background color to `default_bg` when none is given, split off the alpha
channel, convert the pixels to grayscale, colorize black→background and
white→foreground, and re-attach the original alpha unchanged
(`putalpha`). -/
def set_picto_color (img : Img) (color : RGB) (bg_color : Option RGB) : Img :=
  let bg := match bg_color with
    | none => default_bg color
    | some c => c
  { w := img.w
  , h := img.h
  , pix := fun x y =>
      let p := img.pix x y
      let gray := grayscale p
      { r := colorize_channel bg.r color.r gray
      , g := colorize_channel bg.g color.g gray
      , b := colorize_channel bg.b color.b gray
      , a := p.a } }

/-- Modelled from the spec: `sizing.new_size_keep_aspect_ratio` lives in
`pibooth.pictures.sizing`, which is not among the reviewed sources.  Per
the spec it resizes "preserving aspect ratio to fit within the target
box": the binding dimension equals the target's and the other is scaled
proportionally (never exceeding the box).  Degenerate zero dimensions
follow Lean's `0`-valued division. -/
def new_size_keep_aspect_ratio (original target : Nat × Nat) : Nat × Nat :=
  if original.1 * target.2 ≤ original.2 * target.1 then
    (original.1 * target.2 / original.2, target.2)
  else
    (target.1, original.2 * target.1 / original.1)

/-- Modelled from the spec: `sizing.new_size_by_croping_ratio` lives in
`pibooth.pictures.sizing`, which is not among the reviewed sources.  Per
the spec it yields "the largest centered rectangle matching the target
aspect ratio", returned as `(left, upper, right, lower)` crop
coordinates of the source image. -/
def new_size_by_croping_ratio (original target : Nat × Nat) :
    Nat × Nat × Nat × Nat :=
  if original.1 * target.2 ≤ original.2 * target.1 then
    let ch := original.1 * target.2 / target.1
    (0, (original.2 - ch) / 2, original.1, (original.2 - ch) / 2 + ch)
  else
    let cw := original.2 * target.1 / target.2
    ((original.1 - cw) / 2, 0, (original.1 - cw) / 2 + cw, original.2)

/-- Pillow `PIL.Image.new` with mode RGBA: a constant image. -/
def img_new_rgba (size : Nat × Nat) (fill : RGBA) : Img :=
  { w := size.1, h := size.2, pix := fun _ _ => fill }

/-- Pillow `PIL.Image.crop(box)` with `box = (left, upper, right, lower)`:
the sub-image translated to the origin. -/
def pil_crop (img : Img) (box : Nat × Nat × Nat × Nat) : Img :=
  { w := box.2.2.1 - box.1
  , h := box.2.2.2 - box.2.1
  , pix := fun x y => img.pix (x + box.1) (y + box.2.1) }

/-- The two resampling filters the source selects between
(`Image.ANTIALIAS` / `Image.NEAREST`). -/
inductive Filter where
  | antialias
  | nearest
deriving DecidableEq, Repr

/-- Pillow `PIL.Image.resize`: Pillow returns a plain copy when
the requested size equals the current size (the claims below only reach
this fast path); genuine rescaling is modelled by coordinate
subsampling. -/
def pil_resize (img : Img) (size : Nat × Nat) (_resample : Filter) : Img :=
  if img.w = size.1 ∧ img.h = size.2 then img
  else
    { w := size.1
    , h := size.2
    , pix := fun x y => img.pix (x * img.w / size.1) (y * img.h / size.2) }

/-- Pygame `pygame.image.fromstring` fed `(im.tobytes(), im.size, im.mode)`:
a byte-exact round trip from the PIL image to a pygame surface, except
that pygame rejects non-positive dimensions up front with
`ValueError("Resolution must be positive values")`. -/
def img_fromstring (img : Img) : Except PyError Img :=
  if img.w < 1 ∨ img.h < 1 then
    .error (.valueError "Resolution must be positive values")
  else
    .ok img

/-- Pygame `Surface.convert()` with no argument: convert to the display
pixel format, which discards per-pixel alpha (pixels become opaque). -/
def pyg_convert (img : Img) : Img :=
  { w := img.w
  , h := img.h
  , pix := fun x y =>
      let p := img.pix x y
      { r := p.r, g := p.g, b := p.b, a := 255 } }

/-- Pygame `pygame.transform.flip(img, hflip, vflip)`. -/
def pyg_flip (img : Img) (hflip vflip : Bool) : Img :=
  { w := img.w
  , h := img.h
  , pix := fun x y =>
      img.pix (if hflip then img.w - 1 - x else x)
              (if vflip then img.h - 1 - y else y) }

/-- External pygame primitive consumed by the module: rotation by an
arbitrary angle (`pygame.transform.rotate`) is delegated, not
re-specified here. -/
structure PygamePrims where
  rotate : Img → Int → Img

/-- The on-disk asset environment: maps an absolute path to the decoded
image when the file exists and decodes. -/
structure Assets where
  file : String → Option Img

/-- Source `get_filename(name)`: join the package's assets directory with the
asset name.  The base directory (`osp.dirname(osp.abspath(__file__))`)
is a fixed string for one installation. -/
def get_filename (name : String) : String :=
  "/pibooth/pictures/assets/" ++ name

/-- Source `get_pygame_image(name, size, antialiasing, hflip, vflip, crop,
angle, color, bg_color)`.  With no size the asset is loaded and
`convert()`-ed (a missing file raises `pygame.error`).  With a size a
missing asset is replaced by a fully transparent RGBA placeholder of
that size; a non-default color triggers `set_picto_color`; optional
crop, then an aspect-keeping resize, then conversion to a surface.
Flips and rotation are applied at the end of the function, outside the
size branch. -/
def get_pygame_image (pg : PygamePrims) (assets : Assets) (name : String)
    (size : Option (Nat × Nat)) (antialiasing : Bool) (hflip : Bool)
    (vflip : Bool) (crop : Bool) (angle : Int) (color : RGB)
    (bg_color : Option RGB) : Except PyError Img := do
  let path := get_filename name
  let image ← match size with
    | none =>
      match assets.file path with
      | some img => pure (pyg_convert img)
      | none => Except.error (.pygameError ("cannot open " ++ path))
    | some sz => do
      let pil_image := match assets.file path with
        | some img => img
        | none => img_new_rgba sz { r := 0, g := 0, b := 0, a := 0 }
      let pil_image :=
        if color ≠ { r := 255, g := 255, b := 255 } then
          set_picto_color pil_image color bg_color
        else pil_image
      let pil_image :=
        if crop then
          pil_crop pil_image (new_size_by_croping_ratio (pil_image.w, pil_image.h) sz)
        else pil_image
      let pil_image :=
        pil_resize pil_image (new_size_keep_aspect_ratio (pil_image.w, pil_image.h) sz)
          (if antialiasing then .antialias else .nearest)
      img_fromstring pil_image
  let image := if hflip || vflip then pyg_flip image hflip vflip else image
  let image := if angle ≠ 0 then pg.rotate image angle else image
  pure image

/-- A pygame rectangle with integer coordinates. -/
structure Rect where
  x : Int
  y : Int
  w : Int
  h : Int
deriving DecidableEq, Repr

/-- Pygame `Rect.center`: `(x + w / 2, y + h / 2)` in C integer
arithmetic. -/
def Rect.center (r : Rect) : Int × Int :=
  (r.x + r.w / 2, r.y + r.h / 2)

/-- Pygame `surface.get_rect` asked for center `c`: a rectangle of the surface's size
positioned so that its center is `c`. -/
def surface_rect_with_center (sw sh : Nat) (c : Int × Int) : Rect :=
  { x := c.1 - (sw : Int) / 2, y := c.2 - (sh : Int) / 2, w := sw, h := sh }

/-- Fuel-driven binary logarithm (structural recursion, so it reduces in
the kernel); `log2fuel n n` is the floor of log2 of `n` for `n > 0`. -/
def log2fuel : Nat → Nat → Nat
  | 0, _ => 0
  | fuel + 1, n => if 2 ≤ n then log2fuel fuel (n / 2) + 1 else 0

/-- The floor of the binary logarithm of a positive natural. -/
def nlog2 (n : Nat) : Nat := log2fuel n n

/-- Round the fraction `a / b` (with `b > 0`) to the nearest integer,
ties to even — the IEEE-754 tie-breaking rule. -/
def roundHalfEven (a b : Nat) : Nat :=
  let q := a / b
  let r := a % b
  if 2 * r < b then q
  else if b < 2 * r then q + 1
  else if q % 2 = 0 then q else q + 1

/-- Decide `2 ^ e ≤ a / b` by cross-multiplication. -/
def pow2le (e : Int) (a b : Nat) : Bool :=
  if 0 ≤ e then 2 ^ e.toNat * b ≤ a
  else b ≤ a * 2 ^ (-e).toNat

/-- The floor of the binary logarithm of the positive fraction `a / b`. -/
def qfloorLog2 (a b : Nat) : Int :=
  let e0 : Int := (nlog2 a : Int) - (nlog2 b : Int)
  if pow2le (e0 + 1) a b then e0 + 1
  else if pow2le e0 a b then e0
  else e0 - 1

/-- A dyadic rational `m / 2^k`.  Every IEEE-754 binary64 value in the
normal range is of this shape, as is every exact sum and product of
such values, so the caption-rectangle float arithmetic stays inside
this type. -/
structure Dyadic where
  m : Int
  k : Nat
deriving DecidableEq, Repr

/-- Round the fraction `a / b` (with `b > 0`) to the nearest IEEE-754
binary64 value (53-bit significand, round to nearest, ties to even).
Overflow and subnormals are outside the magnitudes that occur here. -/
def roundFrac (a : Int) (b : Nat) : Dyadic :=
  if a = 0 then { m := 0, k := 0 }
  else
    let na := a.natAbs
    let e := qfloorLog2 na b
    let s : Int := 52 - e
    let sgn : Int := if a < 0 then -1 else 1
    if 0 ≤ s then
      { m := sgn * roundHalfEven (na * 2 ^ s.toNat) b, k := s.toNat }
    else
      { m := sgn * (roundHalfEven na (b * 2 ^ (-s).toNat) * 2 ^ (-s).toNat), k := 0 }

/-- Round an exact dyadic value to binary64. -/
def roundDouble (x : Dyadic) : Dyadic := roundFrac x.m (2 ^ x.k)

/-- Binary64 multiplication: round the exact product. -/
def dmul (x y : Dyadic) : Dyadic := roundDouble { m := x.m * y.m, k := x.k + y.k }

/-- Binary64 addition: round the exact sum. -/
def dadd (x y : Dyadic) : Dyadic :=
  roundDouble { m := x.m * 2 ^ y.k + y.m * 2 ^ x.k, k := x.k + y.k }

/-- Binary64 division by two (exact in the normal range). -/
def dhalf (x : Dyadic) : Dyadic := roundDouble { m := x.m, k := x.k + 1 }

/-- A Python int converted to a float, as in `w * 0.3`. -/
def dofNat (n : Nat) : Dyadic := roundFrac n 1

/-- Python `int()` applied to a float value: truncation toward zero,
which is also what `pygame.Rect` does to float arguments. -/
def pyTrunc (x : Dyadic) : Int := x.m.tdiv (2 ^ x.k)

/-- The binary64 value of the Python literal `0.3`. -/
def d0_3 : Dyadic := roundFrac 3 10

/-- The binary64 value of the Python literal `0.76`. -/
def d0_76 : Dyadic := roundFrac 76 100

/-- The binary64 value of the Python literal `0.7`. -/
def d0_7 : Dyadic := roundFrac 7 10

/-- The binary64 value of the Python literal `0.20`. -/
def d0_20 : Dyadic := roundFrac 20 100

/-- The caption rectangle computed by `get_layout_image` from the
template's rect `(0, 0, w, h)`:
`pygame.Rect(x + w*0.3/2, y + h*0.76, w*0.7, h*0.20)` evaluated in
Python IEEE-754 double arithmetic and truncated to integers by
`pygame.Rect`. -/
def layout_caption_rect (w h : Nat) : Rect :=
  { x := pyTrunc (dadd (dofNat 0) (dhalf (dmul (dofNat w) d0_3)))
  , y := pyTrunc (dadd (dofNat 0) (dmul (dofNat h) d0_76))
  , w := pyTrunc (dmul (dofNat w) d0_7)
  , h := pyTrunc (dmul (dofNat h) d0_20) }

/-- The caption rectangle as the spec words it, in exact arithmetic: a
horizontal margin of 15% of the template width on each side (70% usable
width), vertical start at 76% of the height, vertical extent 20% of the
height.  Stated independently of `layout_caption_rect` so the two can
be compared. -/
def spec_caption_rect (w h : Nat) : Rect :=
  { x := ((w * 15) / 100 : Nat)
  , y := ((h * 76) / 100 : Nat)
  , w := ((w * 70) / 100 : Nat)
  , h := ((h * 20) / 100 : Nat) }

/-- Pygame `Surface.blit(src, dest)` of a per-pixel-alpha source onto a
destination surface, source-over blending inside the destination
rectangle anchored at `pos`. -/
def pyg_blit (dest src : Img) (pos : Int × Int) : Img :=
  { w := dest.w
  , h := dest.h
  , pix := fun x y =>
      if pos.1 ≤ (x : Int) ∧ (x : Int) < pos.1 + src.w ∧
         pos.2 ≤ (y : Int) ∧ (y : Int) < pos.2 + src.h then
        let s := src.pix ((x : Int) - pos.1).toNat ((y : Int) - pos.2).toNat
        let d := dest.pix x y
        { r := (s.r * s.a + d.r * (255 - s.a)) / 255
        , g := (s.g * s.a + d.g * (255 - s.a)) / 255
        , b := (s.b * s.a + d.b * (255 - s.a)) / 255
        , a := d.a }
      else dest.pix x y }

/-- External localization and font collaborators consumed by
`get_layout_image`: `language.get_translated_text(key)` (None when no
translation exists), and the composition
`fonts.get_pygame_font(text, fonts.CURRENT, w, h).render(text, True,
color)` packaged as one rendering function producing a surface. -/
structure LayoutEnv where
  get_translated_text : String → Option String
  render_text : String → Int → Int → RGB → Img

/-- Source `get_layout_image(text_color, bg_color, layout_number, size)`: load
`layout{n}.png` at `size`, tinted to `(text_color, bg_color)`; if a
non-empty localized caption exists for the stringified layout number,
render it (in `bg_color`) with a font fitted to the proportional caption
rectangle and blit it centered on that rectangle; otherwise return the
tinted template unchanged. -/
def get_layout_image (pg : PygamePrims) (assets : Assets) (env : LayoutEnv)
    (text_color : RGB) (bg_color : RGB) (layout_number : Nat)
    (size : Nat × Nat) : Except PyError Img := do
  let layout_image ← get_pygame_image pg assets
      ("layout" ++ toString layout_number ++ ".png") (some size)
      true false false false 0 text_color (some bg_color)
  match env.get_translated_text (toString layout_number) with
  | none => pure layout_image
  | some text =>
    if text = "" then
      pure layout_image
    else
      let rect := layout_caption_rect layout_image.w layout_image.h
      let surface := env.render_text text rect.w rect.h bg_color
      let dest := surface_rect_with_center surface.w surface.h rect.center
      pure (pyg_blit layout_image surface (dest.x, dest.y))

/-- Source `get_main_color(image_path)`: resize the image to a single pixel and
return that pixel.  The 1×1 area-filtered downsample is the external
primitive `dominant`. -/
def get_main_color (dominant : Img → RGBA) (img : Img) : RGBA :=
  dominant img

/-! Concrete fixtures used by the witness theorems. -/

/-- A trivial pygame primitive instance (rotation never reached by the
fixtures' angle 0). -/
def pgId : PygamePrims :=
  { rotate := fun img _ => img }

/-- An asset environment with no files at all. -/
def assetsEmpty : Assets :=
  { file := fun _ => none }

/-- A 2×1 two-pixel test asset. -/
def twoPixelAsset : Img :=
  { w := 2
  , h := 1
  , pix := fun x _ =>
      if x = 0 then { r := 10, g := 20, b := 30, a := 255 }
      else { r := 200, g := 100, b := 50, a := 255 } }

/-- An asset environment holding only `a.png` ↦ `twoPixelAsset`. -/
def assetsTwoPixel : Assets :=
  { file := fun path =>
      if path = get_filename "a.png" then some twoPixelAsset else none }

/-- An all-white 8×10 test template image. -/
def whiteTemplate : Img :=
  { w := 8, h := 10, pix := fun _ _ => { r := 255, g := 255, b := 255, a := 255 } }

/-- An asset environment holding only `layout1.png` ↦ `whiteTemplate`. -/
def assetsLayout : Assets :=
  { file := fun path =>
      if path = get_filename "layout1.png" then some whiteTemplate else none }

/-- A layout environment with no translation for any key. -/
def layoutEnvNone : LayoutEnv :=
  { get_translated_text := fun _ => none
  , render_text := fun _ _ _ _ => whiteTemplate }

end Pibooth

namespace Pibooth

/-- C1: for every capture list of length 1 or 4, `get_best_orientation`
returns PORTRAIT iff the first capture's width < height and LANDSCAPE
otherwise; for every capture list of length 2 or 3 it returns the
opposite: LANDSCAPE iff width < height and PORTRAIT otherwise. -/
theorem c1_orientation_decision_table (captures : List Capture) (c0 : Capture)
    (hhead : captures.head? = some c0) :
    ((captures.length = 1 ∨ captures.length = 4) →
      get_best_orientation captures =
        .ok (if c0.w < c0.h then .portrait else .landscape)) ∧
    ((captures.length = 2 ∨ captures.length = 3) →
      get_best_orientation captures =
        .ok (if c0.w < c0.h then .landscape else .portrait)) := by
  cases captures with
  | nil => cases hhead
  | cons a rest =>
    have ha : a = c0 := by simpa using hhead
    subst ha
    constructor
    · rintro (h | h) <;> simp [get_best_orientation, h]
    · rintro (h | h) <;> simp [get_best_orientation, h]

theorem c1_orientation_decision_table_witness :
    get_best_orientation [{ w := 2, h := 3 }] = .ok .portrait := by
  have h := (c1_orientation_decision_table [{ w := 2, h := 3 }]
    { w := 2, h := 3 } rfl).1 (Or.inl rfl)
  simpa using h

/-- C2: for every list of 4 captures whose first capture is square, the
orientation resolves to LANDSCAPE, and with paper format (4,6) the
picture maker is constructed with width 3600, height 2400 and the four
captures in their original order (whichever backend the flags
select). -/
theorem c2_end_to_end_landscape (cv2_available force_pil : Bool)
    (p1 p2 p3 p4 : Capture) (hsq : p1.w = p1.h) :
    get_best_orientation [p1, p2, p3, p4] = .ok .landscape ∧
    get_picture_maker cv2_available [p1, p2, p3, p4] .auto (4, 6) force_pil =
      .ok { kind := if !cv2_available || force_pil then .pil else .opencv
          , width := 3600, height := 2400, captures := [p1, p2, p3, p4] } := by
  have hnp : ¬(p1.w < p1.h) := by omega
  have h1 : get_best_orientation [p1, p2, p3, p4] = .ok .landscape := by
    simp [get_best_orientation, hnp]
  refine ⟨h1, ?_⟩
  simp only [get_picture_maker, h1, bind, Except.bind]
  cases cv2_available <;> cases force_pil <;> rfl

theorem c2_end_to_end_landscape_witness :
    get_picture_maker true [{ w := 5, h := 5 }, { w := 9, h := 2 },
        { w := 3, h := 4 }, { w := 7, h := 7 }] .auto (4, 6) false =
      .ok { kind := .opencv, width := 3600, height := 2400
          , captures := [{ w := 5, h := 5 }, { w := 9, h := 2 },
              { w := 3, h := 4 }, { w := 7, h := 7 }] } := by
  have h := (c2_end_to_end_landscape true false { w := 5, h := 5 }
    { w := 9, h := 2 } { w := 3, h := 4 } { w := 7, h := 7 } rfl).2
  simpa using h

/-- C3 counterexample: on the empty capture list the code raises
`IndexError` (from `captures[0].size`, evaluated before any length
check), not the capture-count `ValueError` the claim requires. -/
theorem c3_empty_list_counterexample :
    get_best_orientation ([] : List Capture) = .error .indexError ∧
    PyError.indexError ≠
      PyError.valueError "List of max 4 pictures expected, got 0" := by
  exact ⟨rfl, by decide⟩

/-- C3 amended: for every capture list of length greater than 4 the
resolver raises the capture-count `ValueError`, which propagates
unchanged through `get_picture_maker`; for length 0, however, the access
to the first capture raises `IndexError` before the count is ever
checked. -/
theorem c3_count_error_amended (cv2_available force_pil : Bool)
    (paper_format : Nat × Nat) (captures : List Capture)
    (hlen : 4 < captures.length) :
    get_best_orientation captures =
      .error (.valueError
        ("List of max 4 pictures expected, got " ++ toString captures.length)) ∧
    get_picture_maker cv2_available captures .auto paper_format force_pil =
      .error (.valueError
        ("List of max 4 pictures expected, got " ++ toString captures.length)) ∧
    get_best_orientation ([] : List Capture) = .error .indexError := by
  match captures, hlen with
  | a :: rest, hlen =>
    have hr : 4 < rest.length + 1 := by simpa using hlen
    have hb1 : ¬(rest = [] ∨ rest.length = 3) := by
      rintro (h | h)
      · subst h; simp at hr
      · omega
    have hb2 : ¬(rest.length = 1 ∨ rest.length = 2) := by omega
    have h1 : get_best_orientation (a :: rest) =
        .error (.valueError
          ("List of max 4 pictures expected, got " ++
            toString (a :: rest).length)) := by
      simp [get_best_orientation, hb1, hb2]
    refine ⟨h1, ?_, rfl⟩
    simp only [get_picture_maker, h1, bind, Except.bind]

theorem c3_count_error_amended_witness :
    get_picture_maker true [{ w := 1, h := 1 }, { w := 1, h := 1 },
        { w := 1, h := 1 }, { w := 1, h := 1 }, { w := 1, h := 1 }] .auto
        (4, 6) false =
      .error (.valueError "List of max 4 pictures expected, got 5") := by
  have h := (c3_count_error_amended true false (4, 6)
    [{ w := 1, h := 1 }, { w := 1, h := 1 }, { w := 1, h := 1 },
     { w := 1, h := 1 }, { w := 1, h := 1 }] (by decide)).2.1
  simpa using h

/-- C4: the backend chosen by `get_picture_maker` is a pure function of
the OpenCV-availability flag and the force-PIL flag: the accelerated
OpenCV backend iff OpenCV is available and PIL is not forced, the
portable PIL backend in every other case. -/
theorem c4_backend_choice (cv2_available force_pil : Bool)
    (captures : List Capture) (orientation : Orientation)
    (paper_format : Nat × Nat) (m : PictureMaker)
    (hok : get_picture_maker cv2_available captures orientation paper_format
        force_pil = .ok m) :
    m.kind = (if cv2_available && !force_pil then .opencv else .pil) := by
  cases orientation <;>
    simp only [get_picture_maker, bind, Except.bind, pure, Except.pure] at hok
  case auto =>
    split at hok
    · exact Except.noConfusion hok
    · split at hok
      · rename_i hcond
        injection hok with h
        subst h
        have hf : (cv2_available && !force_pil) = false := by
          cases cv2_available <;> cases force_pil <;> simp_all
        simp [hf]
      · rename_i hcond
        injection hok with h
        subst h
        have ht : (cv2_available && !force_pil) = true := by
          cases cv2_available <;> cases force_pil <;> simp_all
        simp [ht]
  case portrait =>
    split at hok
    · rename_i hcond
      injection hok with h
      subst h
      have hf : (cv2_available && !force_pil) = false := by
        cases cv2_available <;> cases force_pil <;> simp_all
      simp [hf]
    · rename_i hcond
      injection hok with h
      subst h
      have ht : (cv2_available && !force_pil) = true := by
        cases cv2_available <;> cases force_pil <;> simp_all
      simp [ht]
  case landscape =>
    split at hok
    · rename_i hcond
      injection hok with h
      subst h
      have hf : (cv2_available && !force_pil) = false := by
        cases cv2_available <;> cases force_pil <;> simp_all
      simp [hf]
    · rename_i hcond
      injection hok with h
      subst h
      have ht : (cv2_available && !force_pil) = true := by
        cases cv2_available <;> cases force_pil <;> simp_all
      simp [ht]

theorem c4_backend_choice_witness :
    ({ kind := .opencv, width := 2400, height := 3600
     , captures := [{ w := 1, h := 1 }] } : PictureMaker).kind =
      (if true && !false then .opencv else .pil) := by
  exact c4_backend_choice true false [{ w := 1, h := 1 }] .portrait (4, 6)
    { kind := .opencv, width := 2400, height := 3600
    , captures := [{ w := 1, h := 1 }] } rfl

/-- C5: for every foreground color with channels in [0,255], the
background color `set_picto_color` defaults to is the exact channel-wise
complement (255−r, 255−g, 255−b); consequently a pixel whose grayscale
value is 0 (pure black) is mapped to that complement, alpha kept. -/
theorem c5_default_background_complement (c : RGB)
    (hr : c.r ≤ 255) (hg : c.g ≤ 255) (hb : c.b ≤ 255) :
    default_bg c = { r := 255 - c.r, g := 255 - c.g, b := 255 - c.b } ∧
    ∀ (img : Img) (x y : Nat), grayscale (img.pix x y) = 0 →
      (set_picto_color img c none).pix x y =
        { r := 255 - c.r, g := 255 - c.g, b := 255 - c.b
        , a := (img.pix x y).a } := by
  have hdef : default_bg c = { r := 255 - c.r, g := 255 - c.g, b := 255 - c.b } := by
    simp only [default_bg, RGB.mk.injEq]
    omega
  refine ⟨hdef, fun img x y hgray => ?_⟩
  simp only [set_picto_color, hdef, hgray, colorize_channel, RGBA.mk.injEq]
  norm_num [Int.zero_fdiv]

theorem c5_default_background_complement_witness :
    (set_picto_color (img_new_rgba (1, 1) { r := 0, g := 0, b := 0, a := 7 })
        { r := 10, g := 20, b := 30 } none).pix 0 0 =
      { r := 245, g := 235, b := 225, a := 7 } := by
  exact (c5_default_background_complement { r := 10, g := 20, b := 30 }
    (by decide) (by decide) (by decide)).2
    (img_new_rgba (1, 1) { r := 0, g := 0, b := 0, a := 7 }) 0 0 rfl

/-- C6: `set_picto_color` keeps the image size and leaves the alpha
channel bit-for-bit identical to the input image's alpha channel, for
every input image and every foreground/background color pair. -/
theorem c6_alpha_channel_preserved (img : Img) (color : RGB)
    (bg_color : Option RGB) :
    (set_picto_color img color bg_color).w = img.w ∧
    (set_picto_color img color bg_color).h = img.h ∧
    ∀ x y, ((set_picto_color img color bg_color).pix x y).a =
      (img.pix x y).a := by
  refine ⟨rfl, rfl, fun x y => rfl⟩

/-- C7: for every asset name with no file behind it, `get_pygame_image`
called with a positive target size returns, without error, the fully
transparent RGBA placeholder of exactly that size.  (Positivity of both
dimensions is required: a zero dimension is rejected by pygame itself —
see the C9 theorems.) -/
theorem c7_missing_asset_placeholder (pg : PygamePrims) (assets : Assets)
    (name : String) (w h : Nat)
    (hmiss : assets.file (get_filename name) = none) (hw : 0 < w)
    (hh : 0 < h) :
    get_pygame_image pg assets name (some (w, h)) true false false false 0
        { r := 255, g := 255, b := 255 } none =
      .ok (img_new_rgba (w, h) { r := 0, g := 0, b := 0, a := 0 }) := by
  have hfit : new_size_keep_aspect_ratio (w, h) (w, h) = (w, h) := by
    simp only [new_size_keep_aspect_ratio, mul_comm, le_refl, if_true]
    rw [Nat.mul_div_cancel _ hh]
  have hpos : ¬(w = 0 ∨ h = 0) := by omega
  simp [get_pygame_image, hmiss, hfit, pil_resize, img_fromstring, img_new_rgba,
    hpos, pure, Except.pure, bind, Except.bind]

theorem c7_missing_asset_placeholder_witness :
    get_pygame_image pgId assetsEmpty "missing.png" (some (10, 20)) true false
        false false 0 { r := 255, g := 255, b := 255 } none =
      .ok (img_new_rgba (10, 20) { r := 0, g := 0, b := 0, a := 0 }) := by
  exact c7_missing_asset_placeholder pgId assetsEmpty "missing.png" 10 20 rfl
    (by decide) (by decide)

/-- C8 counterexample: with no target size but `hflip=True`, the surface
returned for the 2×1 asset has the asset's second pixel at position
(0,0) — the horizontal flip IS applied even though no size was given, so
the result is not the unprocessed decoded asset. -/
theorem c8_flip_applied_counterexample :
    (get_pygame_image pgId assetsTwoPixel "a.png" none true true false false 0
        { r := 255, g := 255, b := 255 } none).map (fun img => img.pix 0 0) =
      .ok { r := 200, g := 100, b := 50, a := 255 } ∧
    (pyg_convert twoPixelAsset).pix 0 0 = { r := 10, g := 20, b := 30, a := 255 } := by
  constructor <;> rfl

/-- C8 amended: with no target size the asset is decoded at native
resolution and display-converted, and no recolor, crop or resize is
applied (the result is independent of the color, background, crop and
antialiasing arguments); the flip flags and a non-zero rotation angle,
however, are still honoured: with all of them off the decoded image is
returned unchanged, `hflip=True` (with any vflip) and `vflip=True` alone
return the flipped decoded image, and a non-zero angle returns the
rotated decoded image. -/
theorem c8_no_size_amended (pg : PygamePrims) (assets : Assets) (name : String)
    (img : Img) (hfile : assets.file (get_filename name) = some img)
    (antialiasing hflip vflip crop : Bool) (angle : Int) (color : RGB)
    (bg_color : Option RGB) :
    get_pygame_image pg assets name none antialiasing hflip vflip crop angle
        color bg_color =
      get_pygame_image pg assets name none true hflip vflip false angle
        { r := 255, g := 255, b := 255 } none ∧
    (hflip = false → vflip = false → angle = 0 →
      get_pygame_image pg assets name none antialiasing hflip vflip crop angle
          color bg_color = .ok (pyg_convert img)) ∧
    get_pygame_image pg assets name none antialiasing true vflip crop 0 color
        bg_color = .ok (pyg_flip (pyg_convert img) true vflip) ∧
    get_pygame_image pg assets name none antialiasing false true crop 0 color
        bg_color = .ok (pyg_flip (pyg_convert img) false true) ∧
    (angle ≠ 0 →
      get_pygame_image pg assets name none antialiasing false false crop angle
          color bg_color = .ok (pg.rotate (pyg_convert img) angle)) := by
  refine ⟨rfl, ?_, ?_, ?_, ?_⟩
  · rintro rfl rfl rfl
    simp [get_pygame_image, hfile, pure, Except.pure, bind, Except.bind]
  · simp [get_pygame_image, hfile, pure, Except.pure, bind, Except.bind]
  · simp [get_pygame_image, hfile, pure, Except.pure, bind, Except.bind]
  · intro hangle
    simp [get_pygame_image, hfile, hangle, pure, Except.pure, bind, Except.bind]

theorem c8_no_size_amended_witness :
    get_pygame_image pgId assetsTwoPixel "a.png" none false false false true 0
        { r := 9, g := 9, b := 9 } none = .ok (pyg_convert twoPixelAsset) := by
  exact (c8_no_size_amended pgId assetsTwoPixel "a.png" twoPixelAsset rfl
    false false false true 0 { r := 9, g := 9, b := 9 } none).2.1 rfl rfl rfl

/-- C9 counterexample: a zero-width target is not rejected by any
fail-fast module validation: with no asset behind the name, the
degenerate 0×100 placeholder is built and flows through the recolor,
crop and resize stages without complaint, and the call ultimately fails
only inside `pygame.image.fromstring` with the library error
`ValueError("Resolution must be positive values")` — not with any
`InvalidGeometryError`, which does not exist in the code. -/
theorem c9_zero_size_counterexample :
    get_pygame_image pgId assetsEmpty "a.png" (some (0, 100)) true false false
        false 0 { r := 255, g := 255, b := 255 } none =
      .error (.valueError "Resolution must be positive values") := by
  rfl

/-- C9 amended: the module performs no dimension validation of its own
and defines no geometry error.  A zero-width target size flows through
placeholder construction, the recolor check, the crop check and the
aspect-fit resize; the failure only happens at the very last step, when
`pygame.image.fromstring` rejects the degenerate resolution with the
generic library `ValueError("Resolution must be positive values")` — for
every missing asset and every requested height. -/
theorem c9_no_dimension_validation_amended (pg : PygamePrims)
    (assets : Assets) (name : String) (h : Nat)
    (hmiss : assets.file (get_filename name) = none) :
    get_pygame_image pg assets name (some (0, h)) true false false false 0
        { r := 255, g := 255, b := 255 } none =
      .error (.valueError "Resolution must be positive values") := by
  have hfit : new_size_keep_aspect_ratio (0, h) (0, h) = (0, h) := by
    simp [new_size_keep_aspect_ratio]
  simp [get_pygame_image, hmiss, hfit, pil_resize, img_fromstring, img_new_rgba,
    pure, Except.pure, bind, Except.bind]

theorem c9_no_dimension_validation_amended_witness :
    get_pygame_image pgId assetsEmpty "b.png" (some (0, 7)) true false false
        false 0 { r := 255, g := 255, b := 255 } none =
      .error (.valueError "Resolution must be positive values") := by
  exact c9_no_dimension_validation_amended pgId assetsEmpty "b.png" 7 rfl

set_option maxRecDepth 100000 in
/-- C10 counterexample: the caption rectangle is computed in Python
IEEE-754 double arithmetic, and at a 90×90 template the code gets width
`int(90 * 0.7) = 62` (since `90 * 0.7 = 62.99999999999999` as doubles)
while the exact 70% of the spec gives 63 — so the stated 15%/76%/70%/20%
proportions are not what the code computes. -/
theorem c10_caption_rect_counterexample :
    layout_caption_rect 90 90 = { x := 13, y := 68, w := 62, h := 18 } ∧
    spec_caption_rect 90 90 = { x := 13, y := 68, w := 63, h := 18 } ∧
    layout_caption_rect 90 90 ≠ spec_caption_rect 90 90 := by
  decide

/-- C10 amended: the caption rectangle is
`pygame.Rect(w*0.3/2, h*0.76, w*0.7, h*0.20)` evaluated in double
arithmetic and truncated to integers (`layout_caption_rect`), which
matches the 15%/76%/70%/20% proportions only up to floating-point
rounding; an existing non-empty localized caption is rendered in the
background color with a font fitted to that rectangle and blitted
centered on it; with no caption the tinted template is returned
unmodified. -/
theorem c10_layout_caption_amended (pg : PygamePrims) (assets : Assets)
    (env : LayoutEnv) (text_color bg_color : RGB) (layout_number : Nat)
    (size : Nat × Nat) (tmpl : Img)
    (hload : get_pygame_image pg assets
        ("layout" ++ toString layout_number ++ ".png") (some size)
        true false false false 0 text_color (some bg_color) = .ok tmpl) :
    (env.get_translated_text (toString layout_number) = none →
      get_layout_image pg assets env text_color bg_color layout_number size =
        .ok tmpl) ∧
    (∀ text, env.get_translated_text (toString layout_number) = some text →
      text ≠ "" →
      get_layout_image pg assets env text_color bg_color layout_number size =
        .ok (let rect := layout_caption_rect tmpl.w tmpl.h
             let surface := env.render_text text rect.w rect.h bg_color
             let dest := surface_rect_with_center surface.w surface.h rect.center
             pyg_blit tmpl surface (dest.x, dest.y))) := by
  refine ⟨fun hnone => ?_, fun text htext hne => ?_⟩
  · simp [get_layout_image, hload, bind, Except.bind, hnone, pure, Except.pure]
  · simp [get_layout_image, hload, bind, Except.bind, htext, hne, pure,
      Except.pure]

theorem c10_layout_caption_amended_witness :
    get_layout_image pgId assetsLayout layoutEnvNone
        { r := 255, g := 255, b := 255 } { r := 1, g := 2, b := 3 } 1 (8, 10) =
      .ok whiteTemplate := by
  exact (c10_layout_caption_amended pgId assetsLayout layoutEnvNone
    { r := 255, g := 255, b := 255 } { r := 1, g := 2, b := 3 } 1 (8, 10)
    whiteTemplate rfl).1 rfl

end Pibooth
